import Mathlib

/-!
Verification of the callback-driven activation core of libkineto
(`src/libkineto/src/init.cpp`).

The C++ file is embedded shallowly as pure Lean functions that return, in
addition to their result, the ordered list of externally observable actions
they perform (calls into collaborators, lock operations, log emissions).
Global mutable state (`static bool initialized`) is threaded explicitly.
The CUPTI backend (`CuptiCallbackApi`) is modelled as a record of the
boolean outcomes its probing/registration/enablement calls would return.
-/

/-- The two CUPTI resource-lifecycle event kinds used by init.cpp:
`RESOURCE_CONTEXT_CREATED` and `RESOURCE_CONTEXT_DESTROYED`. -/
inductive CallbackKind where
  | contextCreated
  | contextDestroyed
deriving DecidableEq

/-- Tags for the log messages emitted by init.cpp (payload strings elided). -/
inductive LogMsg where
  | contextCreated
  | profilersActivated
  | eventProfilerDisabled
  | contextDestroyed
  | cuptiInitFailed
  | remediationGuidance
  | injectionInit
deriving DecidableEq

/-- Externally observable actions performed by the code in init.cpp:
calls into collaborators (registry, config loader, event-profiler
controller, CUPTI callback API), mutex operations and log emissions. -/
inductive Act where
  | initSuccessQuery
  | registerCallback (kind : CallbackKind)
  | enableCallback (kind : CallbackKind)
  | initProfilerIfRegistered
  | initBaseConfig
  | eventProfilerStart (ctx : Nat)
  | eventProfilerStop (ctx : Nat)
  | lockAcquire
  | lockRelease
  | logVerbose (msg : LogMsg)
  | logInfo (msg : LogMsg)
  | logWarning (msg : LogMsg)
  | cuptiCall
  | registerProfiler (cpuOnly : Bool)
deriving DecidableEq

/-- Outcomes of the CUPTI callback API calls made by `libkineto_init`:
whether `initSuccess()` reports the backend reachable, and what each of the
four registration/enablement calls would return if made. -/
structure CuptiCallbackApi where
  initSuccess : Bool
  registerCreatedOk : Bool
  registerDestroyedOk : Bool
  enableCreatedOk : Bool
  enableDestroyedOk : Bool
deriving DecidableEq

/-- `initProfilers` (init.cpp lines 44-70), the `RESOURCE_CONTEXT_CREATED`
callback. Arguments: whether `KINETO_DISABLE_EVENT_PROFILER` is set in the
environment, the context handle, and the current value of the global
`initialized` flag. Returns the new value of `initialized` and the trace of
actions performed. -/
def initProfilers (disableEventProfiler : Bool) (ctx : Nat)
    (initialized : Bool) : Bool × List Act :=
  let hdr := [Act.logVerbose LogMsg.contextCreated, Act.lockAcquire]
  let (initialized2, initActs) :=
    if initialized then
      (initialized, [])
    else
      (true, [Act.initProfilerIfRegistered,
              Act.logVerbose LogMsg.profilersActivated])
  let evtActs :=
    if disableEventProfiler then
      [Act.logVerbose LogMsg.eventProfilerDisabled]
    else
      [Act.initBaseConfig, Act.eventProfilerStart ctx]
  (initialized2, hdr ++ initActs ++ evtActs ++ [Act.lockRelease])

/-- `stopProfiler` (init.cpp lines 72-82), the `RESOURCE_CONTEXT_DESTROYED`
callback. It does not read or write the `initialized` flag; the flag is
threaded through unchanged. -/
def stopProfiler (ctx : Nat) (initialized : Bool) : Bool × List Act :=
  (initialized,
   [Act.logInfo LogMsg.contextDestroyed, Act.lockAcquire,
    Act.eventProfilerStop ctx, Act.lockRelease])

/-- `libkineto_init` (init.cpp lines 92-136), for the HAS_CUPTI build.
Returns the `success` boolean and the trace of actions. Each call to
`cbapi.initSuccess()` in the C++ emits one `initSuccessQuery`; the
`registerCallback`/`enableCallback` calls are emitted only when the C++
actually makes them (`&&` short-circuits; the enable block is guarded by
`if (status)`). -/
def libkineto_init (cbapi : CuptiCallbackApi) (cpuOnly logOnError : Bool) :
    Bool × List Act :=
  if cpuOnly then
    (true, [Act.registerProfiler true])
  else
    let (status, regActs) :=
      if cbapi.initSuccess then
        let s1 := cbapi.registerCreatedOk
        let a1 := [Act.registerCallback CallbackKind.contextCreated]
        let (s2, a2) :=
          if s1 then
            (cbapi.registerDestroyedOk,
             [Act.registerCallback CallbackKind.contextDestroyed])
          else (false, [])
        let (s3, a3) :=
          if s2 then
            let e1 := cbapi.enableCreatedOk
            let b1 := [Act.enableCallback CallbackKind.contextCreated]
            let (e2, b2) :=
              if e1 then
                (cbapi.enableDestroyedOk,
                 [Act.enableCallback CallbackKind.contextDestroyed])
              else (false, [])
            (e2, b1 ++ b2)
          else (s2, [])
        (s3, a1 ++ a2 ++ a3)
      else (false, ([] : List Act))
    let probe1 := [Act.initSuccessQuery]
    let probe2 := [Act.initSuccessQuery]
    if !cbapi.initSuccess || !status then
      let diag :=
        if logOnError then
          [Act.cuptiCall, Act.logWarning LogMsg.cuptiInitFailed,
           Act.logInfo LogMsg.remediationGuidance]
        else []
      (false, probe1 ++ regActs ++ probe2 ++ diag ++
              [Act.registerProfiler true])
    else
      (true, probe1 ++ regActs ++ probe2 ++ [Act.registerProfiler false])

/-- `InitializeInjection` (init.cpp lines 140-144): logs, calls
`libkineto_init(false, true)` discarding its boolean result, returns 1. -/
def InitializeInjection (cbapi : CuptiCallbackApi) : Int × List Act :=
  let r := libkineto_init cbapi false true
  (1, Act.logInfo LogMsg.injectionInit :: r.2)

/-- Run a sequence of context-created callbacks, threading the
`initialized` flag; returns for each invocation the flag value at its
return together with its action trace. -/
def runCreatedSeq (disableEventProfiler : Bool) (initialized : Bool) :
    List Nat → List (Bool × List Act)
  | [] => []
  | ctx :: rest =>
    let r := initProfilers disableEventProfiler ctx initialized
    r :: runCreatedSeq disableEventProfiler r.1 rest

/-- Predicate: the action is the global activation call
`initProfilerIfRegistered`. -/
def isActivation : Act → Bool
  | Act.initProfilerIfRegistered => true
  | _ => false

/-- Predicate: the action is a mutex acquisition. -/
def isLockAcquire : Act → Bool
  | Act.lockAcquire => true
  | _ => false

/-- Predicate: the action is a `registerCallback` call on the CUPTI API. -/
def isRegisterCbAct : Act → Bool
  | Act.registerCallback _ => true
  | _ => false

/-- Predicate: the action is an `enableCallback` call on the CUPTI API. -/
def isEnableCbAct : Act → Bool
  | Act.enableCallback _ => true
  | _ => false

/-- Predicate: the action is a `registerCallback` or `enableCallback`
call on the CUPTI API. -/
def isCallbackSetup : Act → Bool
  | Act.registerCallback _ => true
  | Act.enableCallback _ => true
  | _ => false

/-- Predicate: the action registers the profiler implementation with the
process-wide facade. -/
def isRegisterProfilerAct : Act → Bool
  | Act.registerProfiler _ => true
  | _ => false

/-- Predicate: the action starts per-context event collection. -/
def isStartAct : Act → Bool
  | Act.eventProfilerStart _ => true
  | _ => false

/-- Predicate: the action stops per-context event collection. -/
def isStopAct : Act → Bool
  | Act.eventProfilerStop _ => true
  | _ => false

/-- Predicate: the action belongs to the diagnostic block emitted only
when `logOnError` is set (`CUPTI_CALL` error recording, warning,
remediation guidance). -/
def isDiagnostic : Act → Bool
  | Act.cuptiCall => true
  | Act.logWarning _ => true
  | Act.logInfo _ => true
  | _ => false

/-- A context-created callback from the not-yet-activated state activates
exactly once and returns activated. -/
theorem initProfilers_from_false (dis : Bool) (ctx : Nat) :
    (initProfilers dis ctx false).1 = true ∧
    (initProfilers dis ctx false).2.countP isActivation = 1 := by
  cases dis <;> simp [initProfilers, isActivation]

/-- A context-created callback from the activated state does not activate
again and stays activated. -/
theorem initProfilers_from_true (dis : Bool) (ctx : Nat) :
    (initProfilers dis ctx true).1 = true ∧
    (initProfilers dis ctx true).2.countP isActivation = 0 := by
  cases dis <;> simp [initProfilers, isActivation]

/-- Once activated, every later context-created callback returns activated
and performs no activation action. -/
theorem runCreatedSeq_from_true (dis : Bool) (cs : List Nat) :
    ∀ r ∈ runCreatedSeq dis true cs,
      r.1 = true ∧ r.2.countP isActivation = 0 := by
  induction cs with
  | nil => intro r hr; simp [runCreatedSeq] at hr
  | cons c cs ih =>
    intro r hr
    rw [runCreatedSeq] at hr
    rcases List.mem_cons.mp hr with h1 | h2
    · subst h1; exact initProfilers_from_true dis c
    · have hs := (initProfilers_from_true dis c).1
      rw [hs] at h2
      exact ih r h2

/-- Helper: `libkineto_init` performs no mutex acquisition. -/
theorem libkineto_init_lockfree (cbapi : CuptiCallbackApi)
    (cpuOnly logOnError : Bool) :
    (libkineto_init cbapi cpuOnly logOnError).2.countP isLockAcquire = 0 := by
  obtain ⟨i, r1, r2, e1, e2⟩ := cbapi
  cases cpuOnly <;> cases i <;> cases r1 <;> cases r2 <;> cases e1 <;>
    cases e2 <;> cases logOnError <;> decide

/-- C1: for every sequence of context-created callbacks (N ≥ 1) starting
from the not-yet-activated state, the global activation action
(`initProfilerIfRegistered`) executes exactly once over the whole run,
namely during the first invocation and in no later one, and every
invocation returns with the `initialized` flag observed as activated
(so the flag only transitions not-yet-activated → activated and never
reverts). -/
theorem c1_activation_exactly_once (dis : Bool) (c : Nat) (cs : List Nat) :
    (∀ r ∈ runCreatedSeq dis false (c :: cs), r.1 = true)
    ∧ ((runCreatedSeq dis false (c :: cs)).map
        (fun r => r.2.countP isActivation)).sum = 1
    ∧ (runCreatedSeq dis false (c :: cs)).headI.2.countP isActivation = 1
    ∧ (∀ r ∈ (runCreatedSeq dis false (c :: cs)).tail,
        r.2.countP isActivation = 0) := by
  have hseq : runCreatedSeq dis false (c :: cs)
      = initProfilers dis c false :: runCreatedSeq dis true cs := by
    rw [runCreatedSeq, (initProfilers_from_false dis c).1]
  have h0 : ((runCreatedSeq dis true cs).map
      (fun r => r.2.countP isActivation)).sum = 0 := by
    apply List.sum_eq_zero
    intro x hx
    rcases List.mem_map.mp hx with ⟨r, hr, hx2⟩
    rw [← hx2]
    exact (runCreatedSeq_from_true dis cs r hr).2
  refine ⟨?_, ?_, ?_, ?_⟩
  · intro r hr
    rw [hseq] at hr
    rcases List.mem_cons.mp hr with h1 | h2
    · subst h1; exact (initProfilers_from_false dis c).1
    · exact (runCreatedSeq_from_true dis cs r h2).1
  · rw [hseq, List.map_cons, List.sum_cons, h0,
        (initProfilers_from_false dis c).2]
  · rw [hseq]
    exact (initProfilers_from_false dis c).2
  · rw [hseq]
    intro r hr
    exact (runCreatedSeq_from_true dis cs r hr).2

/-- C2: with `cpuOnly = false` and the backend probe `initSuccess()`
reporting failure, `libkineto_init` returns false, registers exactly one
profiler implementation and it is constructed CPU-only, and makes no
`registerCallback` or `enableCallback` call. -/
theorem c2_backend_unavailable (cbapi : CuptiCallbackApi) (logOnError : Bool)
    (h : cbapi.initSuccess = false) :
    (libkineto_init cbapi false logOnError).1 = false
    ∧ (libkineto_init cbapi false logOnError).2.filter isRegisterProfilerAct
        = [Act.registerProfiler true]
    ∧ (libkineto_init cbapi false logOnError).2.filter isCallbackSetup
        = [] := by
  obtain ⟨i, r1, r2, e1, e2⟩ := cbapi
  revert h
  cases i <;> cases r1 <;> cases r2 <;> cases e1 <;> cases e2 <;>
    cases logOnError <;> decide

/-- Witness for C2 at a concrete backend with `initSuccess = false`. -/
theorem c2_backend_unavailable_witness :
    (CuptiCallbackApi.mk false true true true true).initSuccess = false
    ∧ ((libkineto_init (CuptiCallbackApi.mk false true true true true)
          false true).1 = false
       ∧ (libkineto_init (CuptiCallbackApi.mk false true true true true)
            false true).2.filter isRegisterProfilerAct
           = [Act.registerProfiler true]
       ∧ (libkineto_init (CuptiCallbackApi.mk false true true true true)
            false true).2.filter isCallbackSetup = []) :=
  ⟨rfl, c2_backend_unavailable (CuptiCallbackApi.mk false true true true true)
      true rfl⟩

/-- C3: with `cpuOnly = false` and a reachable backend, if any of the two
registrations or two enablements fails, `libkineto_init` returns false and
the (single) profiler registration is CPU-only, exactly as in the
backend-unavailable case. -/
theorem c3_registration_failure_fallback (cbapi : CuptiCallbackApi)
    (logOnError : Bool) (hi : cbapi.initSuccess = true)
    (hf : cbapi.registerCreatedOk = false
          ∨ cbapi.registerDestroyedOk = false
          ∨ cbapi.enableCreatedOk = false
          ∨ cbapi.enableDestroyedOk = false) :
    (libkineto_init cbapi false logOnError).1 = false
    ∧ (libkineto_init cbapi false logOnError).2.filter isRegisterProfilerAct
        = [Act.registerProfiler true] := by
  obtain ⟨i, r1, r2, e1, e2⟩ := cbapi
  revert hi hf
  cases i <;> cases r1 <;> cases r2 <;> cases e1 <;> cases e2 <;>
    cases logOnError <;> decide

/-- Witness for C3 at a concrete backend where registering the
context-created callback fails. -/
theorem c3_registration_failure_fallback_witness :
    ((CuptiCallbackApi.mk true false true true true).initSuccess = true
     ∧ (CuptiCallbackApi.mk true false true true true).registerCreatedOk
         = false)
    ∧ ((libkineto_init (CuptiCallbackApi.mk true false true true true)
          false false).1 = false
       ∧ (libkineto_init (CuptiCallbackApi.mk true false true true true)
            false false).2.filter isRegisterProfilerAct
           = [Act.registerProfiler true]) :=
  ⟨⟨rfl, rfl⟩,
   c3_registration_failure_fallback
     (CuptiCallbackApi.mk true false true true true) false rfl
     (Or.inl rfl)⟩

/-- C4: `libkineto_init(cpuOnly=true, logOnError=false)` performs exactly
one action — the CPU-only profiler registration — and returns true; in
particular no `initSuccess` probe, no callback registration or enablement,
and no warning occur. -/
theorem c4_cpuonly_skips_probe (cbapi : CuptiCallbackApi) :
    libkineto_init cbapi true false = (true, [Act.registerProfiler true]) :=
  rfl

/-- Predicate: the action is `initBaseConfig` or an event-collection
start. -/
def isConfigOrStart : Act → Bool
  | Act.initBaseConfig => true
  | Act.eventProfilerStart _ => true
  | _ => false

/-- C5: if the `KINETO_DISABLE_EVENT_PROFILER` toggle is set when a
context-created callback runs, no event collection is started (and
`initBaseConfig` is not called) while global activation proceeds exactly
as with the toggle unset; otherwise the callback calls `initBaseConfig`
and then starts event collection scoped to exactly the given context
handle. -/
theorem c5_event_profiler_toggle (ctx : Nat) (s : Bool) :
    ((initProfilers true ctx s).2.filter isConfigOrStart = []
     ∧ (initProfilers true ctx s).1 = (initProfilers false ctx s).1
     ∧ (initProfilers true ctx s).1 = true
     ∧ (initProfilers true ctx s).2.countP isActivation
         = (initProfilers false ctx s).2.countP isActivation)
    ∧ (initProfilers false ctx s).2.filter isConfigOrStart
        = [Act.initBaseConfig, Act.eventProfilerStart ctx] := by
  cases s <;>
    simp [initProfilers, isConfigOrStart, isActivation]

/-- C6: the context-destroyed callback leaves the `initialized` flag
unchanged, issues exactly one event-collection stop and it targets the
given context handle, and performs no activation and no profiler
registration — for any context handle and any prior state, including a
handle that never received a matching start. -/
theorem c6_destroy_unconditional_stop (ctx : Nat) (s : Bool) :
    (stopProfiler ctx s).1 = s
    ∧ (stopProfiler ctx s).2.filter isStopAct = [Act.eventProfilerStop ctx]
    ∧ (stopProfiler ctx s).2.countP isActivation = 0
    ∧ (stopProfiler ctx s).2.countP isRegisterProfilerAct = 0 := by
  refine ⟨rfl, ?_, ?_, ?_⟩ <;>
    simp [stopProfiler, isStopAct, isActivation, isRegisterProfilerAct]

/-- C7 counterexample: the claim that the context-destroyed handler
(`stopProfiler`) forwards the stop request without acquiring any lock is
false — its trace contains a mutex acquisition (init.cpp line 80 takes
`initMutex`). -/
theorem c7_counterexample_destroy_locks :
    ¬ ((stopProfiler 0 false).2.countP isLockAcquire = 0) := by decide

/-- C7 (amended): both lifecycle handlers acquire the short-held mutex
exactly once per invocation — the context-created handler around the
activation decision and the context-destroyed handler around the stop
request — while `libkineto_init` and `InitializeInjection` acquire no
lock. -/
theorem c7_amended_lock_discipline (dis : Bool) (c1 c2 : Nat) (s1 s2 : Bool)
    (cbapi : CuptiCallbackApi) (cpuOnly logOnError : Bool) :
    (initProfilers dis c1 s1).2.countP isLockAcquire = 1
    ∧ (stopProfiler c2 s2).2.countP isLockAcquire = 1
    ∧ (libkineto_init cbapi cpuOnly logOnError).2.countP isLockAcquire = 0
    ∧ (InitializeInjection cbapi).2.countP isLockAcquire = 0 := by
  refine ⟨?_, ?_, libkineto_init_lockfree cbapi cpuOnly logOnError, ?_⟩
  · cases dis <;> cases s1 <;> simp [initProfilers, isLockAcquire]
  · simp [stopProfiler, isLockAcquire]
  · have h := libkineto_init_lockfree cbapi false true
    simp [InitializeInjection, isLockAcquire, List.countP_cons]
    simpa [isLockAcquire] using h

/-- C8: whenever `libkineto_init(cpuOnly=false, ...)` falls back to
CPU-only mode (backend unreachable or some registration/enablement
failed), the diagnostic block — the `CUPTI_CALL` error-code recording,
the warning, and the remediation guidance — is emitted exactly when
`logOnError` is true: with `logOnError = true` the trace contains the
error recording and the warning; with `logOnError = false` it contains no
diagnostic action at all; the two traces agree on every non-diagnostic
action, the returned boolean is the same, and the silent fallback still
registers exactly one, CPU-only, profiler. -/
theorem c8_diagnostics_iff_logOnError (cbapi : CuptiCallbackApi)
    (h : cbapi.initSuccess = false ∨ cbapi.registerCreatedOk = false
         ∨ cbapi.registerDestroyedOk = false
         ∨ cbapi.enableCreatedOk = false
         ∨ cbapi.enableDestroyedOk = false) :
    Act.cuptiCall ∈ (libkineto_init cbapi false true).2
    ∧ Act.logWarning LogMsg.cuptiInitFailed ∈ (libkineto_init cbapi false true).2
    ∧ (libkineto_init cbapi false false).2.filter isDiagnostic = []
    ∧ (libkineto_init cbapi false true).2.filter (fun a => !isDiagnostic a)
        = (libkineto_init cbapi false false).2.filter (fun a => !isDiagnostic a)
    ∧ (libkineto_init cbapi false true).1 = (libkineto_init cbapi false false).1
    ∧ (libkineto_init cbapi false false).2.filter isRegisterProfilerAct
        = [Act.registerProfiler true] := by
  obtain ⟨i, r1, r2, e1, e2⟩ := cbapi
  revert h
  cases i <;> cases r1 <;> cases r2 <;> cases e1 <;> cases e2 <;> decide

/-- Witness for C8 at a concrete unreachable backend. -/
theorem c8_diagnostics_iff_logOnError_witness :
    ((CuptiCallbackApi.mk false true true true true).initSuccess = false
     ∨ (CuptiCallbackApi.mk false true true true true).registerCreatedOk = false
     ∨ (CuptiCallbackApi.mk false true true true true).registerDestroyedOk = false
     ∨ (CuptiCallbackApi.mk false true true true true).enableCreatedOk = false
     ∨ (CuptiCallbackApi.mk false true true true true).enableDestroyedOk = false)
    ∧ (Act.cuptiCall
         ∈ (libkineto_init (CuptiCallbackApi.mk false true true true true)
             false true).2
       ∧ Act.logWarning LogMsg.cuptiInitFailed
           ∈ (libkineto_init (CuptiCallbackApi.mk false true true true true)
               false true).2
       ∧ (libkineto_init (CuptiCallbackApi.mk false true true true true)
            false false).2.filter isDiagnostic = []
       ∧ (libkineto_init (CuptiCallbackApi.mk false true true true true)
            false true).2.filter (fun a => !isDiagnostic a)
           = (libkineto_init (CuptiCallbackApi.mk false true true true true)
               false false).2.filter (fun a => !isDiagnostic a)
       ∧ (libkineto_init (CuptiCallbackApi.mk false true true true true)
            false true).1
           = (libkineto_init (CuptiCallbackApi.mk false true true true true)
               false false).1
       ∧ (libkineto_init (CuptiCallbackApi.mk false true true true true)
            false false).2.filter isRegisterProfilerAct
           = [Act.registerProfiler true]) :=
  ⟨Or.inl rfl,
   c8_diagnostics_iff_logOnError (CuptiCallbackApi.mk false true true true true)
     (Or.inl rfl)⟩

/-- C9: the injection entry point returns the nonzero code 1 regardless of
what `libkineto_init` returned, and its action trace is exactly the
injection log line followed by the actions of
`libkineto_init(cpuOnly=false, logOnError=true)`. -/
theorem c9_injection_entry_point (cbapi : CuptiCallbackApi) :
    (InitializeInjection cbapi).1 = 1
    ∧ (InitializeInjection cbapi).1 ≠ 0
    ∧ (InitializeInjection cbapi).2
        = Act.logInfo LogMsg.injectionInit :: (libkineto_init cbapi false true).2 := by
  refine ⟨rfl, ?_, rfl⟩
  intro h
  simp [InitializeInjection] at h

/-- C10: with a reachable backend, registration/enablement short-circuits
on first failure: if registering the context-created callback fails, only
that registration appears in the trace and no enablement occurs; if
registering the context-destroyed callback fails, both registrations but
no enablement occur; if enabling the context-created callback fails,
enabling the context-destroyed one is not attempted. -/
theorem c10_short_circuit (cbapi : CuptiCallbackApi) (logOnError : Bool)
    (hi : cbapi.initSuccess = true) :
    (cbapi.registerCreatedOk = false →
       (libkineto_init cbapi false logOnError).2.filter isRegisterCbAct
         = [Act.registerCallback CallbackKind.contextCreated]
       ∧ (libkineto_init cbapi false logOnError).2.filter isEnableCbAct = [])
    ∧ (cbapi.registerCreatedOk = true → cbapi.registerDestroyedOk = false →
       (libkineto_init cbapi false logOnError).2.filter isRegisterCbAct
         = [Act.registerCallback CallbackKind.contextCreated,
            Act.registerCallback CallbackKind.contextDestroyed]
       ∧ (libkineto_init cbapi false logOnError).2.filter isEnableCbAct = [])
    ∧ (cbapi.registerCreatedOk = true → cbapi.registerDestroyedOk = true →
       cbapi.enableCreatedOk = false →
       (libkineto_init cbapi false logOnError).2.filter isEnableCbAct
         = [Act.enableCallback CallbackKind.contextCreated]) := by
  obtain ⟨i, r1, r2, e1, e2⟩ := cbapi
  revert hi
  cases i <;> cases r1 <;> cases r2 <;> cases e1 <;> cases e2 <;>
    cases logOnError <;> decide

/-- Witness for C10 at a concrete backend where the first registration
fails. -/
theorem c10_short_circuit_witness :
    (CuptiCallbackApi.mk true false true true true).initSuccess = true
    ∧ ((CuptiCallbackApi.mk true false true true true).registerCreatedOk
          = false →
        (libkineto_init (CuptiCallbackApi.mk true false true true true)
           false true).2.filter isRegisterCbAct
          = [Act.registerCallback CallbackKind.contextCreated]
        ∧ (libkineto_init (CuptiCallbackApi.mk true false true true true)
             false true).2.filter isEnableCbAct = []) :=
  ⟨rfl,
   (c10_short_circuit (CuptiCallbackApi.mk true false true true true)
      true rfl).1⟩
